import Mathlib

set_option linter.unusedVariables false

/- Shallow embedding of the Antelligence tumor-nanobot backend
   (src/backend/tumor_environment.py and src/backend/nanobot_simulation.py).

   Python floats are embedded as exact rationals where the relevant code is
   pure arithmetic, and as real numbers for the nanobot geometry, whose code
   uses Euclidean norms (np.linalg.norm / np.sqrt).  Every call to np.random
   is embedded as an explicit parameter: a Bool for a comparison against a
   random draw, a rational for a uniformly drawn value. -/

inductive CellPhase where
  | VIABLE
  | HYPOXIC
  | NECROTIC
  | APOPTOTIC
  deriving DecidableEq, Repr

inductive CellType where
  | STEM_CELL
  | DIFFERENTIATED
  | RESISTANT
  | INVASIVE
  deriving DecidableEq, Repr

inductive DeathCause where
  | necrosis
  | apoptosis
  | immune_kill
  deriving DecidableEq, Repr

/-- TumorCell (tumor_environment.py:41-83).  All attributes mutated anywhere in
the source are fields; the per-type constants filled in by `__init__` are kept
as fields because `absorb_drug` and the immune attack mutate
`drug_sensitivity` and `resistance_level` after construction. -/
structure TumorCell where
  cell_id : ℕ
  position : ℚ × ℚ × ℚ
  radius : ℚ := 10
  phase : CellPhase := .VIABLE
  cell_type : CellType := .DIFFERENTIATED
  oxygen_uptake_rate : ℚ
  hypoxic_threshold : ℚ
  necrotic_threshold : ℚ := 5/2
  hypoxic_duration : ℚ := 0
  necrotic_time_threshold : ℚ
  drug_sensitivity : ℚ
  accumulated_drug : ℚ := 0
  lethal_drug_dose : ℚ
  resistance_level : ℚ
  mutation_rate : ℚ
  is_alive : Bool := true
  time_of_death : Option DeathCause := none
  generation : ℕ := 0
  deriving DecidableEq, Repr

/-- TumorCell._get_oxygen_uptake_rate (tumor_environment.py:85-93). -/
def getOxygenUptakeRate : CellType → ℚ
  | .STEM_CELL => 8
  | .DIFFERENTIATED => 10
  | .RESISTANT => 12
  | .INVASIVE => 15

/-- TumorCell._get_hypoxic_threshold (tumor_environment.py:95-103). -/
def getHypoxicThreshold : CellType → ℚ
  | .STEM_CELL => 8
  | .DIFFERENTIATED => 10
  | .RESISTANT => 9
  | .INVASIVE => 12

/-- TumorCell._get_necrotic_time_threshold (tumor_environment.py:105-113). -/
def getNecroticTimeThreshold : CellType → ℚ
  | .STEM_CELL => 60
  | .DIFFERENTIATED => 30
  | .RESISTANT => 45
  | .INVASIVE => 20

/-- TumorCell._get_drug_sensitivity (tumor_environment.py:115-123). -/
def getDrugSensitivity : CellType → ℚ
  | .STEM_CELL => 3/10
  | .DIFFERENTIATED => 1
  | .RESISTANT => 1/2
  | .INVASIVE => 6/5

/-- TumorCell._get_lethal_drug_dose (tumor_environment.py:125-133). -/
def getLethalDrugDose : CellType → ℚ
  | .STEM_CELL => 2
  | .DIFFERENTIATED => 1/2
  | .RESISTANT => 1
  | .INVASIVE => 3/10

/-- TumorCell._get_resistance_level (tumor_environment.py:135-143). -/
def getResistanceLevel : CellType → ℚ
  | .STEM_CELL => 4/5
  | .DIFFERENTIATED => 1/10
  | .RESISTANT => 3/5
  | .INVASIVE => 1/5

/-- TumorCell._get_mutation_rate (tumor_environment.py:145-153). -/
def getMutationRate : CellType → ℚ
  | .STEM_CELL => 1/100
  | .DIFFERENTIATED => 1/20
  | .RESISTANT => 1/10
  | .INVASIVE => 3/20

/-- TumorCell.__init__ (tumor_environment.py:50-83): a fresh cell with the
per-type parameter table filled in. -/
def mkTumorCell (id : ℕ) (pos : ℚ × ℚ × ℚ)
    (initial_phase : CellPhase := .VIABLE)
    (ct : CellType := .DIFFERENTIATED) : TumorCell :=
  { cell_id := id
    position := pos
    phase := initial_phase
    cell_type := ct
    oxygen_uptake_rate := getOxygenUptakeRate ct
    hypoxic_threshold := getHypoxicThreshold ct
    necrotic_time_threshold := getNecroticTimeThreshold ct
    drug_sensitivity := getDrugSensitivity ct
    lethal_drug_dose := getLethalDrugDose ct
    resistance_level := getResistanceLevel ct
    mutation_rate := getMutationRate ct }

/-- TumorCell.update_oxygen_status (tumor_environment.py:155-179). -/
def TumorCell.update_oxygen_status (c : TumorCell)
    (oxygen_concentration dt : ℚ) : TumorCell :=
  if c.is_alive = false then c else
  if oxygen_concentration < c.hypoxic_threshold then
    let c1 : TumorCell :=
      { c with phase := .HYPOXIC, hypoxic_duration := c.hypoxic_duration + dt }
    if c1.necrotic_time_threshold < c1.hypoxic_duration then
      { c1 with phase := .NECROTIC, is_alive := false,
                time_of_death := some .necrosis }
    else c1
  else
    if c.phase = .HYPOXIC then
      { c with phase := .VIABLE, hypoxic_duration := 0 }
    else c

/-- TumorCell.accumulate_drug (tumor_environment.py:181-213): direct delivery
from a nanobot; the fixed proximity-amplification multiplier is 5.0.  Returns
the updated cell together with the "killed" flag. -/
def TumorCell.accumulate_drug (c : TumorCell) (amount : ℚ) : TumorCell × Bool :=
  if c.is_alive = false then (c, false) else
  let enhanced_amount := amount * 5
  let c1 : TumorCell :=
    { c with accumulated_drug := c.accumulated_drug + enhanced_amount }
  if c1.lethal_drug_dose ≤ c1.accumulated_drug then
    ({ c1 with phase := .APOPTOTIC, is_alive := false,
               time_of_death := some .apoptosis }, true)
  else (c1, false)

/-- TumorCell.absorb_drug (tumor_environment.py:215-245).  The stochastic
adaptive-resistance draw `np.random.random() < self.mutation_rate * dt` is
embedded as the Bool parameter `mutate`. -/
def TumorCell.absorb_drug (c : TumorCell) (drug_concentration dt : ℚ)
    (mutate : Bool) : TumorCell :=
  if c.is_alive = false then c else
  let effective := drug_concentration * (1 - c.resistance_level)
  let drug_absorbed := effective * c.drug_sensitivity * dt * 1
  let c1 : TumorCell :=
    { c with accumulated_drug := c.accumulated_drug + drug_absorbed }
  let c2 : TumorCell :=
    if 0 < drug_absorbed ∧ mutate = true then
      { c1 with resistance_level := min 1 (c1.resistance_level + 1/100),
                drug_sensitivity := max (1/10) (c1.drug_sensitivity - 1/100) }
    else c1
  if c2.lethal_drug_dose * (1 + c2.resistance_level) ≤ c2.accumulated_drug then
    { c2 with phase := .APOPTOTIC, is_alive := false,
              time_of_death := some .apoptosis }
  else c2

/-- Claim C1: for a living tumor cell, `absorb_drug` leaves the cell dead
(phase APOPTOTIC, is_alive = false) if and only if its accumulated_drug after
absorption is at least `lethal_drug_dose * (1 + resistance_level)` (all three
quantities read from the post-call state); the threshold is inclusive on the
death side. -/
theorem absorb_drug_death_boundary (c : TumorCell) (conc dt : ℚ) (mutate : Bool)
    (halive : c.is_alive = true) :
    ((c.absorb_drug conc dt mutate).is_alive = false ∧
        (c.absorb_drug conc dt mutate).phase = .APOPTOTIC) ↔
      (c.absorb_drug conc dt mutate).lethal_drug_dose *
          (1 + (c.absorb_drug conc dt mutate).resistance_level) ≤
        (c.absorb_drug conc dt mutate).accumulated_drug := by
  unfold TumorCell.absorb_drug
  simp only [halive]
  split_ifs with hmut hdeath hdeath <;>
    simp_all

/-- Concrete instantiation of `absorb_drug_death_boundary`: a freshly built
differentiated cell (alive) absorbing drug at concentration 1 for 1 minute. -/
theorem absorb_drug_death_boundary_witness :
    (mkTumorCell 0 (0, 0, 0)).is_alive = true ∧
      ((((mkTumorCell 0 (0, 0, 0)).absorb_drug 1 1 false).is_alive = false ∧
          ((mkTumorCell 0 (0, 0, 0)).absorb_drug 1 1 false).phase = .APOPTOTIC) ↔
        ((mkTumorCell 0 (0, 0, 0)).absorb_drug 1 1 false).lethal_drug_dose *
            (1 + ((mkTumorCell 0 (0, 0, 0)).absorb_drug 1 1 false).resistance_level) ≤
          ((mkTumorCell 0 (0, 0, 0)).absorb_drug 1 1 false).accumulated_drug) :=
  ⟨rfl, absorb_drug_death_boundary (mkTumorCell 0 (0, 0, 0)) 1 1 false rfl⟩

/-- Claim C2: for a living cell, `accumulate_drug` adds `amount * 5` (the fixed
proximity-amplification multiplier) to accumulated_drug and returns the killed
flag true exactly when the resulting accumulated_drug reaches
`lethal_drug_dose` unadjusted by resistance, in which case the phase becomes
APOPTOTIC and is_alive becomes false; on a dead cell it returns the cell
unchanged with flag false. -/
theorem accumulate_drug_spec (c : TumorCell) (amount : ℚ) (hamt : 0 ≤ amount) :
    (c.is_alive = true →
      (c.accumulate_drug amount).1.accumulated_drug
          = c.accumulated_drug + amount * 5 ∧
        ((c.accumulate_drug amount).2 = true ↔
          c.lethal_drug_dose ≤ c.accumulated_drug + amount * 5) ∧
        ((c.accumulate_drug amount).2 = true →
          (c.accumulate_drug amount).1.phase = .APOPTOTIC ∧
            (c.accumulate_drug amount).1.is_alive = false) ∧
        ((c.accumulate_drug amount).2 = false →
          (c.accumulate_drug amount).1.is_alive = true)) ∧
      (c.is_alive = false → c.accumulate_drug amount = (c, false)) := by
  unfold TumorCell.accumulate_drug
  constructor
  · intro halive
    simp only [halive]
    split_ifs with hdeath <;> simp_all
  · intro hdead
    simp [hdead]

/-- Concrete instantiation of `accumulate_drug_spec`: delivering 3 micrograms
directly to a freshly built differentiated cell. -/
theorem accumulate_drug_spec_witness :
    (0 : ℚ) ≤ 3 ∧
      ((mkTumorCell 0 (0, 0, 0)).is_alive = true →
        ((mkTumorCell 0 (0, 0, 0)).accumulate_drug 3).1.accumulated_drug
            = (mkTumorCell 0 (0, 0, 0)).accumulated_drug + 3 * 5 ∧
          (((mkTumorCell 0 (0, 0, 0)).accumulate_drug 3).2 = true ↔
            (mkTumorCell 0 (0, 0, 0)).lethal_drug_dose ≤
              (mkTumorCell 0 (0, 0, 0)).accumulated_drug + 3 * 5) ∧
          (((mkTumorCell 0 (0, 0, 0)).accumulate_drug 3).2 = true →
            ((mkTumorCell 0 (0, 0, 0)).accumulate_drug 3).1.phase = .APOPTOTIC ∧
              ((mkTumorCell 0 (0, 0, 0)).accumulate_drug 3).1.is_alive = false) ∧
          (((mkTumorCell 0 (0, 0, 0)).accumulate_drug 3).2 = false →
            ((mkTumorCell 0 (0, 0, 0)).accumulate_drug 3).1.is_alive = true)) :=
  ⟨by norm_num, (accumulate_drug_spec (mkTumorCell 0 (0, 0, 0)) 3 (by norm_num)).1⟩

/-- Claim C6: for a living cell, `update_oxygen_status`: under hypoxic oxygen
the phase becomes HYPOXIC and duration grows by dt, tipping into NECROTIC
death when the duration strictly exceeds the type-specific threshold; with
sufficient oxygen a HYPOXIC cell reverts to VIABLE with duration reset to
exactly zero. -/
theorem update_oxygen_status_spec (c : TumorCell) (o2 dt : ℚ)
    (halive : c.is_alive = true) :
    (o2 < c.hypoxic_threshold →
      (c.update_oxygen_status o2 dt).hypoxic_duration
          = c.hypoxic_duration + dt ∧
        (c.necrotic_time_threshold < c.hypoxic_duration + dt →
          (c.update_oxygen_status o2 dt).phase = .NECROTIC ∧
            (c.update_oxygen_status o2 dt).is_alive = false) ∧
        (c.hypoxic_duration + dt ≤ c.necrotic_time_threshold →
          (c.update_oxygen_status o2 dt).phase = .HYPOXIC ∧
            (c.update_oxygen_status o2 dt).is_alive = true)) ∧
      (c.hypoxic_threshold ≤ o2 → c.phase = .HYPOXIC →
        (c.update_oxygen_status o2 dt).phase = .VIABLE ∧
          (c.update_oxygen_status o2 dt).hypoxic_duration = 0) := by
  unfold TumorCell.update_oxygen_status
  constructor
  · intro hlow
    simp only [halive, hlow]
    split_ifs with hnec <;> simp_all
  · intro hhigh hphase
    have : ¬ o2 < c.hypoxic_threshold := not_lt.mpr hhigh
    simp [halive, this, hphase]

/-- Concrete instantiation of `update_oxygen_status_spec`: a living hypoxic
stem cell at oxygen 1 mmHg for a 2 minute timestep. -/
theorem update_oxygen_status_spec_witness :
    (mkTumorCell 7 (1, 2, 0) .HYPOXIC .STEM_CELL).is_alive = true ∧
      ((1 : ℚ) < (mkTumorCell 7 (1, 2, 0) .HYPOXIC .STEM_CELL).hypoxic_threshold →
        ((mkTumorCell 7 (1, 2, 0) .HYPOXIC .STEM_CELL).update_oxygen_status 1 2).hypoxic_duration
            = (mkTumorCell 7 (1, 2, 0) .HYPOXIC .STEM_CELL).hypoxic_duration + 2 ∧
          ((mkTumorCell 7 (1, 2, 0) .HYPOXIC .STEM_CELL).necrotic_time_threshold <
              (mkTumorCell 7 (1, 2, 0) .HYPOXIC .STEM_CELL).hypoxic_duration + 2 →
            ((mkTumorCell 7 (1, 2, 0) .HYPOXIC .STEM_CELL).update_oxygen_status 1 2).phase = .NECROTIC ∧
              ((mkTumorCell 7 (1, 2, 0) .HYPOXIC .STEM_CELL).update_oxygen_status 1 2).is_alive = false) ∧
          ((mkTumorCell 7 (1, 2, 0) .HYPOXIC .STEM_CELL).hypoxic_duration + 2 ≤
              (mkTumorCell 7 (1, 2, 0) .HYPOXIC .STEM_CELL).necrotic_time_threshold →
            ((mkTumorCell 7 (1, 2, 0) .HYPOXIC .STEM_CELL).update_oxygen_status 1 2).phase = .HYPOXIC ∧
              ((mkTumorCell 7 (1, 2, 0) .HYPOXIC .STEM_CELL).update_oxygen_status 1 2).is_alive = true)) :=
  ⟨rfl, ((update_oxygen_status_spec (mkTumorCell 7 (1, 2, 0) .HYPOXIC .STEM_CELL) 1 2 rfl).1)⟩

inductive ImmuneCellType where
  | T_CELL
  | MACROPHAGE
  | NK_CELL
  | DENDRITIC
  deriving DecidableEq, Repr

/-- ImmuneCell (tumor_environment.py:283-313).  The source keeps a direct
object reference to its target tumor cell; here the target is an index into
the authoritative tumor-cell list of the geometry. -/
structure ImmuneCell where
  cell_id : ℕ
  position : ℚ × ℚ × ℚ
  cell_type : ImmuneCellType
  activation_level : ℚ
  radius : ℚ := 8
  cytotoxicity : ℚ
  migration_speed : ℚ
  lifespan : ℚ
  age : ℚ := 0
  target_cell : Option ℕ := none
  is_active : Bool := true
  deriving DecidableEq, Repr

/-- Squared planar distance between two cell positions (the source only uses
the first two coordinates, `position[:2]`).  Every comparison of Euclidean
norms in the immune-cell code is embedded as the same comparison of squared
norms, which is exact because sqrt is strictly monotone on nonnegatives. -/
def distSq2 (p q : ℚ × ℚ × ℚ) : ℚ :=
  (p.1 - q.1) ^ 2 + (p.2.1 - q.2.1) ^ 2

/-- One step of the np.argmin fold: keep the incumbent unless the new entry is
strictly closer, which selects the first index attaining the minimum exactly
as `np.argmin` does. -/
def pickMinBy (pos : ℚ × ℚ × ℚ) (acc : Option (ℕ × TumorCell))
    (p : ℕ × TumorCell) : Option (ℕ × TumorCell) :=
  match acc with
  | none => some p
  | some q =>
    if distSq2 p.2.position pos < distSq2 q.2.position pos then some p else some q

/-- ImmuneCell._find_nearest_tumor_cell (tumor_environment.py:376-388):
filter to the living cells, then argmin of planar distance to `pos`; returns
the index of the chosen cell in the authoritative list. -/
def findNearestTumorCellIdx (pos : ℚ × ℚ × ℚ) (cells : List TumorCell) :
    Option ℕ :=
  ((cells.enum.filter fun p => p.2.is_alive).foldl (pickMinBy pos) none).map
    Prod.fst

/-- ImmuneCell._attack_tumor_cell (tumor_environment.py:390-411).  The random
draw `np.random.random() < damage` is the Bool parameter `killRand`. -/
def attackTumorCell (ic : ImmuneCell) (target : TumorCell) (dt : ℚ)
    (killRand : Bool) : TumorCell :=
  let damage := ic.cytotoxicity * ic.activation_level * dt * 10
  let t1 : TumorCell :=
    { target with
      resistance_level := max 0 (target.resistance_level - damage * (1/10)) }
  let t2 : TumorCell :=
    { t1 with
      drug_sensitivity := min 2 (t1.drug_sensitivity + damage * (5/100)) }
  if 1/2 < damage ∧ killRand = true then
    { t2 with phase := .APOPTOTIC, is_alive := false,
              time_of_death := some .immune_kill }
  else t2

/-- Target (re)selection at the top of ImmuneCell.update
(tumor_environment.py:364-365): keep the current target if it exists and is
alive, otherwise search for the nearest living tumor cell. -/
def chooseTarget (pos : ℚ × ℚ × ℚ) (cells : List TumorCell) :
    Option ℕ → Option ℕ
  | some i =>
    match cells[i]? with
    | some c =>
      if c.is_alive = true then some i else findNearestTumorCellIdx pos cells
    | none => findNearestTumorCellIdx pos cells
  | none => findNearestTumorCellIdx pos cells

/-- ImmuneCell.update (tumor_environment.py:345-374): age the cell, die of old
age, retarget, and attack the target when within the 20 µm attack range
(embedded as squared distance < 400). -/
def immuneUpdate (ic : ImmuneCell) (dt : ℚ) (cells : List TumorCell)
    (killRand : Bool) : ImmuneCell × List TumorCell :=
  if ic.is_active = false then (ic, cells) else
  if ic.lifespan < ic.age + dt then
    ({ ic with age := ic.age + dt, is_active := false }, cells)
  else
    let tgt := chooseTarget ic.position cells ic.target_cell
    let ic2 : ImmuneCell := { ic with age := ic.age + dt, target_cell := tgt }
    match tgt with
    | some i =>
      match cells[i]? with
      | some c =>
        if distSq2 ic.position c.position < 400 then
          (ic2, cells.set i (attackTumorCell ic2 c dt killRand))
        else (ic2, cells)
      | none => (ic2, cells)
    | none => (ic2, cells)

theorem pickMinBy_foldl_mem (pos : ℚ × ℚ × ℚ) (l : List (ℕ × TumorCell)) :
    ∀ acc r, l.foldl (pickMinBy pos) acc = some r → r ∈ l ∨ acc = some r := by
  induction l with
  | nil => intro acc r h; right; exact h
  | cons p t ih =>
    intro acc r h
    simp only [List.foldl_cons] at h
    rcases ih (pickMinBy pos acc p) r h with hmem | hacc
    · left; exact List.mem_cons_of_mem _ hmem
    · cases acc with
      | none =>
        simp only [pickMinBy, Option.some.injEq] at hacc
        left; rw [← hacc]; exact List.mem_cons_self _ _
      | some q =>
        simp only [pickMinBy] at hacc
        split_ifs at hacc <;> simp only [Option.some.injEq] at hacc
        · left; rw [← hacc]; exact List.mem_cons_self _ _
        · right; rw [hacc]

theorem findNearestTumorCellIdx_alive (pos : ℚ × ℚ × ℚ)
    (cells : List TumorCell) (i : ℕ)
    (h : findNearestTumorCellIdx pos cells = some i) :
    ∃ c, cells[i]? = some c ∧ c.is_alive = true := by
  unfold findNearestTumorCellIdx at h
  obtain ⟨r, hr, hfst⟩ := Option.map_eq_some'.mp h
  rcases pickMinBy_foldl_mem pos _ none r hr with hmem | habs
  · have hmem' := List.mem_filter.mp hmem
    have hidx : cells[r.1]? = some r.2 := List.mem_enum_iff_getElem?.mp hmem'.1
    exact ⟨r.2, hfst ▸ hidx, hmem'.2⟩
  · exact absurd habs (by simp)

theorem chooseTarget_alive (pos : ℚ × ℚ × ℚ) (old : Option ℕ)
    (cells : List TumorCell) (i : ℕ)
    (h : chooseTarget pos cells old = some i) :
    ∃ c, cells[i]? = some c ∧ c.is_alive = true := by
  cases old with
  | none =>
    simp only [chooseTarget] at h
    exact findNearestTumorCellIdx_alive pos cells i h
  | some j =>
    simp only [chooseTarget] at h
    cases hj : cells[j]? with
    | none =>
      simp only [hj] at h
      exact findNearestTumorCellIdx_alive pos cells i h
    | some cj =>
      simp only [hj] at h
      by_cases hal : cj.is_alive = true
      · rw [if_pos hal, Option.some.injEq] at h
        exact ⟨cj, h ▸ hj, hal⟩
      · rw [if_neg hal] at h
        exact findNearestTumorCellIdx_alive pos cells i h

/-- Claim C3: once a tumor cell's is_alive is false, every operation that can
touch it leaves its whole state — in particular phase, accumulated_drug and
resistance_level — unchanged: update_oxygen_status, accumulate_drug and
absorb_drug bail out on dead cells, and the immune-cell update only ever
attacks a living cell (both the retained and the freshly found target are
checked alive), so a dead cell at any index of the population survives the
immune step unchanged. -/
theorem dead_cell_frozen (c : TumorCell) (hdead : c.is_alive = false) :
    (∀ o2 dt, c.update_oxygen_status o2 dt = c) ∧
      (∀ amount, c.accumulate_drug amount = (c, false)) ∧
      (∀ conc dt mutate, c.absorb_drug conc dt mutate = c) ∧
      (∀ ic dt killRand cells (i : ℕ), cells[i]? = some c →
        ((immuneUpdate ic dt cells killRand).2)[i]? = some c) := by
  refine ⟨?_, ?_, ?_, ?_⟩
  · intro o2 dt; simp [TumorCell.update_oxygen_status, hdead]
  · intro amount; simp [TumorCell.accumulate_drug, hdead]
  · intro conc dt mutate; simp [TumorCell.absorb_drug, hdead]
  · intro ic dt killRand cells i hi
    unfold immuneUpdate
    cases hact : ic.is_active with
    | false => simp [hi]
    | true =>
      rw [if_neg (by simp : ¬(true = false))]
      by_cases hage : ic.lifespan < ic.age + dt
      · rw [if_pos hage]; exact hi
      · rw [if_neg hage]
        cases htj : chooseTarget ic.position cells ic.target_cell with
        | none => simp [htj, hi]
        | some j =>
          obtain ⟨cj, hcj, halj⟩ := chooseTarget_alive _ _ _ _ htj
          have hne : j ≠ i := by
            intro hji
            subst hji
            rw [hi, Option.some.injEq] at hcj
            rw [← hcj, hdead] at halj
            exact Bool.false_ne_true halj
          simp only [htj, hcj]
          split_ifs with hdist
          · exact (List.getElem?_set_ne hne).trans hi
          · exact hi

/-- The two operations of the source that touch a nanobot's `drug_payload`,
projected onto the payload value.  `deliver hasDrugAndTarget` is
NanobotAgent._deliver_drug (nanobot_simulation.py:477-531): when the target is
still alive, the drug substrate exists and the payload is positive, the bot
releases `min(drug_payload, 3.0)` micrograms; otherwise the payload is left
untouched (the guard is the Bool parameter).  `reload` is
NanobotAgent._reload_drug (nanobot_simulation.py:554-561):
`drug_payload = min(drug_payload + 5.0, max_payload)`. -/
inductive PayloadOp where
  | deliver (hasDrugAndTarget : Bool)
  | reload
  deriving DecidableEq, Repr

def applyPayloadOp (max_payload : ℚ) : PayloadOp → ℚ → ℚ
  | .deliver g, p => if g = true ∧ 0 < p then p - min p 3 else p
  | .reload, p => min (p + 5) max_payload

def applyPayloadOps (max_payload : ℚ) (ops : List PayloadOp) (p : ℚ) : ℚ :=
  ops.foldl (fun q op => applyPayloadOp max_payload op q) p

/-- Claim C4: starting from a payload within [0, max_payload], any sequence
interleaving _deliver_drug and _reload_drug leaves the payload within
[0, max_payload] (so in particular it holds after each prefix of the
sequence). -/
theorem payload_bounds (max_payload : ℚ) (hmax : 0 ≤ max_payload) (p : ℚ)
    (h0 : 0 ≤ p) (h1 : p ≤ max_payload) (ops : List PayloadOp) :
    0 ≤ applyPayloadOps max_payload ops p ∧
      applyPayloadOps max_payload ops p ≤ max_payload := by
  induction ops generalizing p with
  | nil => exact ⟨h0, h1⟩
  | cons op t ih =>
    have hstep : 0 ≤ applyPayloadOp max_payload op p ∧
        applyPayloadOp max_payload op p ≤ max_payload := by
      cases op with
      | deliver g =>
        simp only [applyPayloadOp]
        split_ifs with hg
        · have hmple : min p 3 ≤ p := min_le_left p 3
          have hmnn : (0 : ℚ) ≤ min p 3 := le_min (le_of_lt hg.2) (by norm_num)
          exact ⟨by linarith, by linarith⟩
        · exact ⟨h0, h1⟩
      | reload =>
        simp only [applyPayloadOp]
        exact ⟨le_min (by linarith) hmax, min_le_right _ _⟩
    exact ih _ hstep.1 hstep.2

/-- Concrete instantiation of `payload_bounds`: a full 20 µg payload through a
delivery followed by a reload. -/
theorem payload_bounds_witness :
    (0 : ℚ) ≤ 20 ∧ (0 : ℚ) ≤ 20 ∧ (20 : ℚ) ≤ 20 ∧
      (0 ≤ applyPayloadOps 20 [.deliver true, .reload] 20 ∧
        applyPayloadOps 20 [.deliver true, .reload] 20 ≤ 20) :=
  ⟨by norm_num, by norm_num, by norm_num,
    payload_bounds 20 (by norm_num) 20 (by norm_num) (by norm_num)
      [.deliver true, .reload]⟩

/-- VesselPoint (tumor_environment.py:451-473). -/
structure VesselPoint where
  position : ℚ × ℚ × ℚ
  oxygen_supply : ℚ := 38
  drug_supply : ℚ := 0
  supply_radius : ℚ := 50
  vessel_type : String := "normal"
  bbb_permeability : ℚ := 1/10
  deriving DecidableEq, Repr

/-- One loop iteration of TumorGeometry._generate_peripheral_vasculature
(tumor_environment.py:612-654).  The uniform random draws are parameters: `r`
is the radial distance drawn from [0.9*tumor_radius, 1.1*tumor_radius] and
`(c, s)` stands for (cos θ, sin θ) of the drawn angle; `z` is the center's z
coordinate in 3-D and 0 in 2-D. -/
def generatePeripheralVessel (center : ℚ × ℚ × ℚ)
    (tumor_radius r c s z : ℚ) : VesselPoint :=
  let x := center.1 + r * c
  let y := center.2.1 + r * s
  let vt := if 6/5 * tumor_radius < r then "bbb" else "normal"
  let perm : ℚ := if 6/5 * tumor_radius < r then 1/20 else 1/10
  { position := (x, y, z)
    oxygen_supply := 38
    supply_radius := 50
    vessel_type := vt
    bbb_permeability := perm }

/-- Claim C10: for tumor_radius ≥ 0, a vessel generated at any radial distance
r in the sampled range [0.9*tumor_radius, 1.1*tumor_radius] always has
vessel_type "normal" and bbb_permeability 0.1: the r > 1.2*tumor_radius branch
that would mark a low-permeability "bbb" vessel is unreachable. -/
theorem generated_vessels_never_bbb (center : ℚ × ℚ × ℚ)
    (tumor_radius r c s z : ℚ) (hR : 0 ≤ tumor_radius)
    (hlo : 9/10 * tumor_radius ≤ r) (hhi : r ≤ 11/10 * tumor_radius) :
    (generatePeripheralVessel center tumor_radius r c s z).vessel_type
        = "normal" ∧
      (generatePeripheralVessel center tumor_radius r c s z).bbb_permeability
        = 1/10 := by
  have hn : ¬ (6/5 * tumor_radius < r) := not_lt.mpr (by linarith)
  unfold generatePeripheralVessel
  simp [hn]

/-- Concrete instantiation of `generated_vessels_never_bbb`: a vessel drawn
exactly on the tumor boundary of a 200 µm tumor. -/
theorem generated_vessels_never_bbb_witness :
    (0 : ℚ) ≤ 200 ∧ (9/10 : ℚ) * 200 ≤ 200 ∧ (200 : ℚ) ≤ 11/10 * 200 ∧
      ((generatePeripheralVessel (300, 300, 0) 200 200 1 0 0).vessel_type
          = "normal" ∧
        (generatePeripheralVessel (300, 300, 0) 200 200 1 0 0).bbb_permeability
          = 1/10) :=
  ⟨by norm_num, by norm_num, by norm_num,
    generated_vessels_never_bbb (300, 300, 0) 200 200 1 0 0 (by norm_num)
      (by norm_num) (by norm_num)⟩

/-- Modelled from the spec: the SubstrateField class lives in the repository's
`biofvm.py`, which is not among the files under src/ (only its callers in
nanobot_simulation.py are, e.g. the oxygen `add_sink` deposits in
TumorNanobotModel._update_tumor_cells, nanobot_simulation.py:1194-1198).
Spec §4.1 and §3: a named diffusing/decaying scalar field over a fixed grid
with per-voxel accumulated source/sink buffers.  The grid is abstracted to an
index type `ι` with a neighbour map `nbrs` realising the discrete Laplacian
stencil (the spec does not fix the stencil's edge handling) and a boundary
predicate. -/
structure SubstrateField (ι : Type) where
  concentration : ι → ℚ
  source_buffer : ι → ℚ
  sink_buffer : ι → ℚ
  diffusion_coefficient : ℚ
  decay_rate : ℚ
  boundary_value : ℚ
  nbrs : ι → List ι
  isBoundary : ι → Bool

/-- Modelled from the spec (§4.1 add_source): accumulate into the per-voxel
source buffer; no immediate concentration change. -/
def addSource {ι : Type} [DecidableEq ι] (f : SubstrateField ι) (voxel : ι)
    (amount : ℚ) : SubstrateField ι :=
  { f with source_buffer := fun i =>
      if i = voxel then f.source_buffer i + amount else f.source_buffer i }

/-- Modelled from the spec (§4.1 add_sink): accumulate into the per-voxel
sink buffer; no immediate concentration change. -/
def addSink {ι : Type} [DecidableEq ι] (f : SubstrateField ι) (voxel : ι)
    (amount : ℚ) : SubstrateField ι :=
  { f with sink_buffer := fun i =>
      if i = voxel then f.sink_buffer i + amount else f.sink_buffer i }

/-- Modelled from the spec (§4.1 step(dt)): integrate diffusion (discrete
Laplacian stencil scaled by the diffusion coefficient), apply first-order
decay `C -= decay_rate * C * dt`, apply the accumulated sources and sinks,
enforce the boundary concentration at domain edges, clamp to ≥ 0, then clear
the source/sink buffers.  `dx2` is the squared voxel size. -/
def stepField {ι : Type} (f : SubstrateField ι) (dt dx2 : ℚ) :
    SubstrateField ι :=
  let diffused := fun i =>
    f.concentration i +
      f.diffusion_coefficient * dt / dx2 *
        (((f.nbrs i).map f.concentration).sum
          - (f.nbrs i).length * f.concentration i)
  let decayed := fun i => diffused i - f.decay_rate * diffused i * dt
  let sourced := fun i => decayed i + f.source_buffer i - f.sink_buffer i
  let bounded := fun i =>
    if f.isBoundary i = true then f.boundary_value else sourced i
  let clamped := fun i => max 0 (bounded i)
  { f with concentration := clamped
           source_buffer := fun _ => 0
           sink_buffer := fun _ => 0 }

/-- Claim C7: every voxel's concentration is ≥ 0 after a substrate field step,
for any field state — hence for any sequence of add_source/add_sink deposits,
including the oxygen sinks accumulated from living cells (the second conjunct
spells out a field after further arbitrary deposits): the step's final clamp
guarantees it whatever diffusion, decay, deposits and boundary enforcement
produced. -/
theorem substrate_step_nonneg {ι : Type} [DecidableEq ι]
    (f : SubstrateField ι) (dt dx2 a b : ℚ) (v w i : ι) :
    0 ≤ (stepField f dt dx2).concentration i ∧
      0 ≤ (stepField (addSink (addSource f v a) w b) dt dx2).concentration i :=
  ⟨le_max_left 0 _, le_max_left 0 _⟩

/-- Modelled from the spec: `TumorCell.update_growth` is called from
TumorNanobotModel._update_tumor_cells (nanobot_simulation.py:1188) but is not
defined in any file under src/.  Spec §4.3: per-type growth probability gated
by oxygen sufficiency; growth/division must not execute for non-viable cells.
The random draw against the per-type growth probability over the timestep is
the Bool parameter `growRand`; oxygen sufficiency is oxygen at or above the
cell's hypoxic threshold. -/
def TumorCell.update_growth (c : TumorCell) (dt oxygen : ℚ)
    (growRand : Bool) : Bool :=
  if c.is_alive = true ∧ c.phase = .VIABLE ∧ c.hypoxic_threshold ≤ oxygen then
    growRand
  else false

/-- Modelled from the spec: `TumorCell.divide` is called from
TumorNanobotModel._update_tumor_cells (nanobot_simulation.py:1189) but is not
defined in any file under src/.  Spec §4.3: on success, returns a new daughter
TumorCell at a nearby offset position with generation+1.  The random nearby
offset is the parameter `offset`. -/
def TumorCell.divide (c : TumorCell) (new_id : ℕ) (offset : ℚ × ℚ) :
    TumorCell :=
  { mkTumorCell new_id
      (c.position.1 + offset.1, c.position.2.1 + offset.2, c.position.2.2)
      .VIABLE c.cell_type with
    generation := c.generation + 1 }

/-- Claim C8: growth never fires for a non-viable cell; when it fires, the
cell was alive, viable and oxygen-sufficient (the per-type probability draw is
the remaining gate); and division yields a daughter at a nearby offset
position with generation one greater than the parent's and the requested fresh
id. -/
theorem update_growth_divide_spec (c : TumorCell) (dt oxygen : ℚ)
    (growRand : Bool) (new_id : ℕ) (offset : ℚ × ℚ) :
    (c.phase ≠ .VIABLE → c.update_growth dt oxygen growRand = false) ∧
      (c.update_growth dt oxygen growRand = true →
        c.is_alive = true ∧ c.phase = .VIABLE ∧
          c.hypoxic_threshold ≤ oxygen) ∧
      (c.divide new_id offset).generation = c.generation + 1 ∧
      (c.divide new_id offset).position
          = (c.position.1 + offset.1, c.position.2.1 + offset.2,
              c.position.2.2) ∧
      (c.divide new_id offset).cell_id = new_id := by
  refine ⟨?_, ?_, rfl, rfl, rfl⟩
  · intro hnv
    simp [TumorCell.update_growth, hnv]
  · intro h
    unfold TumorCell.update_growth at h
    split_ifs at h with hc
    exact hc

/-- Concrete instantiation of `update_growth_divide_spec`: a hypoxic stem
cell never grows, and its division bookkeeping is as specified. -/
theorem update_growth_divide_spec_witness :
    ((mkTumorCell 3 (5, 6, 0) .HYPOXIC .STEM_CELL).phase ≠ .VIABLE) ∧
      (mkTumorCell 3 (5, 6, 0) .HYPOXIC .STEM_CELL).update_growth 1 38 true
          = false ∧
      ((mkTumorCell 3 (5, 6, 0) .HYPOXIC .STEM_CELL).divide 9 (1, 1)).generation
          = (mkTumorCell 3 (5, 6, 0) .HYPOXIC .STEM_CELL).generation + 1 :=
  ⟨by decide,
    (update_growth_divide_spec (mkTumorCell 3 (5, 6, 0) .HYPOXIC .STEM_CELL)
        1 38 true 9 (1, 1)).1 (by decide),
    (update_growth_divide_spec (mkTumorCell 3 (5, 6, 0) .HYPOXIC .STEM_CELL)
        1 38 true 9 (1, 1)).2.2.1⟩

open Classical in
/-- From here on the embedding uses real numbers: the nanobot movement and
queen guidance code is built on np.linalg.norm and unit-vector division,
which are irrational in general.  Comparisons on reals use classical
decidability. -/
inductive NanobotState where
  | SEARCHING
  | TARGETING
  | DELIVERING
  | RETURNING
  | RELOADING
  deriving DecidableEq, Repr

/-- Planar vector sum (numpy elementwise +). -/
def vadd (p q : ℝ × ℝ) : ℝ × ℝ := (p.1 + q.1, p.2 + q.2)

/-- Planar vector difference (numpy elementwise -). -/
def vsub (p q : ℝ × ℝ) : ℝ × ℝ := (p.1 - q.1, p.2 - q.2)

/-- Planar scalar multiple (numpy scalar *). -/
def vscale (a : ℝ) (v : ℝ × ℝ) : ℝ × ℝ := (a * v.1, a * v.2)

/-- np.linalg.norm of a planar vector. -/
noncomputable def norm2 (v : ℝ × ℝ) : ℝ := Real.sqrt (v.1 ^ 2 + v.2 ^ 2)

/-- The slice of TumorGeometry and Microenvironment state that the nanobot
movement code reads: tumor center and radius, vessel positions (all z = 0 in
the 2-D model), and the domain ranges used by np.clip in _clamp_position. -/
structure BotGeometry where
  center : ℝ × ℝ
  tumor_radius : ℝ
  vessels : List (ℝ × ℝ)
  xmin : ℝ
  xmax : ℝ
  ymin : ℝ
  ymax : ℝ

/-- NanobotAgent (nanobot_simulation.py:57-120), restricted to the fields the
movement and guidance code reads or writes; `speed` is the fixed 30.0 and
`max_payload` the fixed 20.0 of the constructor.  The target-cell reference is
an index into the tumor-cell list. -/
structure Nanobot where
  nanobot_id : ℕ
  position : ℝ × ℝ
  state : NanobotState
  drug_payload : ℝ
  target_cell : Option ℕ := none

/-- Planar position of a tumor cell as the nanobot code reads it
(np.array(cell.position[:2])). -/
noncomputable def cellPos2 (c : TumorCell) : ℝ × ℝ :=
  ((c.position.1 : ℝ), (c.position.2.1 : ℝ))

/-- np.clip of a coordinate into [lo, hi] (used by _clamp_position). -/
noncomputable def clipR (x lo hi : ℝ) : ℝ := min hi (max x lo)

open Classical in
/-- Shared body of NanobotAgent._find_nearest_living_cell
(nanobot_simulation.py:316-356) and NanobotAgent._find_nearest_hypoxic_cell
(nanobot_simulation.py:265-314): keep the cells satisfying `keep` (alive,
resp. alive-and-hypoxic), restrict to cells within the tumor boundary, and
return the index of the first cell attaining the minimum distance to `pos`
(np.argmin keeps the first minimum, as does the strict-< fold), provided that
minimum is at most `max_distance`. -/
noncomputable def findNearestCellIdx (cells : List TumorCell)
    (keep : TumorCell → Bool) (max_distance : ℝ) (geom : BotGeometry)
    (pos : ℝ × ℝ) : Option ℕ :=
  let valid := (cells.enum.filter fun p => keep p.2).filter fun p =>
    decide (norm2 (vsub (cellPos2 p.2) geom.center) ≤ geom.tumor_radius)
  let best := valid.foldl (fun acc p =>
    match acc with
    | none => some p
    | some q =>
      if norm2 (vsub (cellPos2 p.2) pos) < norm2 (vsub (cellPos2 q.2) pos)
      then some p else some q) none
  match best with
  | some q =>
    if norm2 (vsub (cellPos2 q.2) pos) ≤ max_distance then some q.1 else none
  | none => none

open Classical in
/-- TumorGeometry.find_nearest_vessel (tumor_environment.py:786-797): first
minimum of the Euclidean distance over the vessels, none when there are no
vessels (all z coordinates are 0, so the planar norm equals the 3-D norm). -/
noncomputable def findNearestVesselPos (vessels : List (ℝ × ℝ))
    (pos : ℝ × ℝ) : Option (ℝ × ℝ) :=
  vessels.foldl (fun acc v =>
    match acc with
    | none => some v
    | some w =>
      if norm2 (vsub pos v) < norm2 (vsub pos w) then some v else some w) none

open Classical in
/-- NanobotAgent._enforce_tumor_boundary (nanobot_simulation.py:580-641),
with the source's branch structure inlined: outside the tumor radius, an
actively targeting bot whose target sits inside the tumor is left alone; a
bot that may not be outside (not RETURNING/RELOADING and payload ≥ 10) and is
not targeting is snapped to `center + unit(center - position)*(radius - 5)`
and loses any active target; a RETURNING bot more than 100 µm from the
nearest vessel is nudged half a speed-step toward it; every other bot is left
unchanged. -/
noncomputable def enforceTumorBoundary (geom : BotGeometry)
    (cells : List TumorCell) (bot : Nanobot) : Nanobot :=
  if geom.tumor_radius < norm2 (vsub bot.position geom.center) then
    if (bot.state = NanobotState.TARGETING ∨
          bot.state = NanobotState.DELIVERING) ∧
        (match bot.target_cell.bind fun i => cells[i]? with
         | some tc =>
           norm2 (vsub (cellPos2 tc) geom.center) ≤ geom.tumor_radius
         | none => False) then
      bot
    else if ¬ (bot.state = NanobotState.RETURNING ∨
          bot.state = NanobotState.RELOADING ∨ bot.drug_payload < 10) ∧
        ¬ (bot.state = NanobotState.TARGETING ∨
          bot.state = NanobotState.DELIVERING) then
      if 0 < norm2 (vsub geom.center bot.position) then
        if bot.target_cell.isSome = true then
          { bot with
            position := vadd geom.center
              (vscale (geom.tumor_radius - 5)
                (vscale (1 / norm2 (vsub geom.center bot.position))
                  (vsub geom.center bot.position)))
            target_cell := none
            state := NanobotState.SEARCHING }
        else
          { bot with
            position := vadd geom.center
              (vscale (geom.tumor_radius - 5)
                (vscale (1 / norm2 (vsub geom.center bot.position))
                  (vsub geom.center bot.position))) }
      else bot
    else if bot.state = NanobotState.RETURNING then
      match findNearestVesselPos geom.vessels bot.position with
      | some vp =>
        if 100 < norm2 (vsub bot.position vp) then
          { bot with
            position := vadd bot.position
              (vscale (30 * (1/2))
                (vscale (1 / norm2 (vsub bot.position vp))
                  (vsub vp bot.position))) }
        else bot
      | none => bot
    else bot
  else bot

/-- NanobotAgent._clamp_position (nanobot_simulation.py:563-578): np.clip to
the simulation domain, then enforce the tumor boundary constraints. -/
noncomputable def clampPosition (geom : BotGeometry) (cells : List TumorCell)
    (bot : Nanobot) : Nanobot :=
  enforceTumorBoundary geom cells
    { bot with position :=
        (clipR bot.position.1 geom.xmin geom.xmax,
         clipR bot.position.2 geom.ymin geom.ymax) }

/-- The environment-dependent branch taken by _search_for_target when the
immediate nearest-living-cell check does not fire.  The displacement applied
by the Queen-guidance, follow-trail, chemotaxis, random-walk and
steer-to-center branches depends on substrate gradients, the random generator
and the LLM reply, none of which is modelled here, so it is the parameter of
`move`; every one of those branches applies its displacement and then calls
_clamp_position.  An LLM `"target"` reply (`llmTarget`) instead locks the
nearest hypoxic cell within 120 µm — without moving or clamping — and falls
through to the chemotaxis displacement when no such cell exists. -/
inductive SearchChoice where
  | llmTarget (fallback : ℝ × ℝ)
  | move (delta : ℝ × ℝ)

/-- The movement tail of NanobotAgent._search_for_target
(nanobot_simulation.py:164-235). -/
noncomputable def searchMoveStep (geom : BotGeometry) (cells : List TumorCell)
    (bot : Nanobot) : SearchChoice → Nanobot
  | .llmTarget fallback =>
    match findNearestCellIdx cells
        (fun c => c.is_alive && decide (c.phase = CellPhase.HYPOXIC)) 120 geom
        bot.position with
    | some j =>
      { bot with target_cell := some j, state := NanobotState.TARGETING }
    | none =>
      clampPosition geom cells
        { bot with position := vadd bot.position fallback }
  | .move delta =>
    clampPosition geom cells { bot with position := vadd bot.position delta }

open Classical in
/-- NanobotAgent._search_for_target (nanobot_simulation.py:144-235): first the
immediate check — lock the nearest living cell within 100 µm when the payload
exceeds 2 µg, changing state without moving or clamping — then the movement
tail. -/
noncomputable def searchStep (geom : BotGeometry) (cells : List TumorCell)
    (bot : Nanobot) (choice : SearchChoice) : Nanobot :=
  match findNearestCellIdx cells (fun c => c.is_alive) 100 geom
      bot.position with
  | some i =>
    if 2 < bot.drug_payload then
      { bot with target_cell := some i, state := NanobotState.TARGETING }
    else searchMoveStep geom cells bot choice
  | none => searchMoveStep geom cells bot choice

theorem norm2_nonneg (v : ℝ × ℝ) : 0 ≤ norm2 v := Real.sqrt_nonneg _

theorem norm2_vsub_symm (p q : ℝ × ℝ) :
    norm2 (vsub p q) = norm2 (vsub q p) := by
  unfold norm2 vsub
  congr 1
  ring

theorem norm2_vscale (a : ℝ) (v : ℝ × ℝ) :
    norm2 (vscale a v) = |a| * norm2 v := by
  unfold norm2 vscale
  rw [show (a * v.1) ^ 2 + (a * v.2) ^ 2 = a ^ 2 * (v.1 ^ 2 + v.2 ^ 2) by ring,
    Real.sqrt_mul (sq_nonneg a), Real.sqrt_sq_eq_abs]

theorem vsub_vadd_cancel (c w : ℝ × ℝ) : vsub (vadd c w) c = w := by
  unfold vadd vsub
  simp

theorem norm2_axis (d : ℝ) : norm2 (d, 0) = |d| := by
  unfold norm2
  simp [Real.sqrt_sq_eq_abs]

/-- The tumor-boundary enforcement keeps a SEARCHING bot that is not low on
payload within the tumor radius: inside it does nothing, outside it snaps the
position to the 5 µm-inset edge point. -/
theorem enforce_contained (geom : BotGeometry) (cells : List TumorCell)
    (b : Nanobot) (hstate : b.state = NanobotState.SEARCHING)
    (hpay : 10 ≤ b.drug_payload) (hR : 5 ≤ geom.tumor_radius) :
    norm2 (vsub (enforceTumorBoundary geom cells b).position geom.center)
      ≤ geom.tumor_radius := by
  unfold enforceTumorBoundary
  by_cases hd : geom.tumor_radius < norm2 (vsub b.position geom.center)
  · rw [if_pos hd]
    have hat : ¬ (b.state = NanobotState.TARGETING ∨
        b.state = NanobotState.DELIVERING) := by
      rw [hstate]
      rintro (h | h) <;> exact NanobotState.noConfusion h
    have hcbo : ¬ (b.state = NanobotState.RETURNING ∨
        b.state = NanobotState.RELOADING ∨ b.drug_payload < 10) := by
      rw [hstate]
      rintro (h | h | h)
      · exact NanobotState.noConfusion h
      · exact NanobotState.noConfusion h
      · linarith
    rw [if_neg (fun hcon => hat hcon.1), if_pos ⟨hcbo, hat⟩]
    have hdn : norm2 (vsub geom.center b.position)
        = norm2 (vsub b.position geom.center) := norm2_vsub_symm _ _
    have hdpos : 0 < norm2 (vsub geom.center b.position) := by
      rw [hdn]; linarith
    rw [if_pos hdpos]
    have hgoal : norm2 (vsub (vadd geom.center
          (vscale (geom.tumor_radius - 5)
            (vscale (1 / norm2 (vsub geom.center b.position))
              (vsub geom.center b.position)))) geom.center)
        ≤ geom.tumor_radius := by
      rw [vsub_vadd_cancel, norm2_vscale, norm2_vscale,
        abs_of_pos (one_div_pos.mpr hdpos),
        abs_of_nonneg (by linarith : (0 : ℝ) ≤ geom.tumor_radius - 5),
        one_div_mul_cancel (ne_of_gt hdpos), mul_one]
      linarith
    split_ifs with htc
    · exact hgoal
    · exact hgoal
  · rw [if_neg hd]
    exact le_of_not_lt hd

/-- Claim C5 (amended): a SEARCHING nanobot that is not low on payload
(drug_payload ≥ 10, the enforcement's allow-outside threshold) and whose step
does not lock onto a target (the nearest-living-cell search comes back empty,
so a movement branch runs and ends in _clamp_position) finishes the step
within tumor_radius of the tumor center, for any displacement the
guidance/chemotaxis/random-walk branch chooses (tumor_radius ≥ 5 so the
5 µm-inset edge repositioning lands inside). -/
theorem searching_move_step_contained (geom : BotGeometry)
    (cells : List TumorCell) (bot : Nanobot) (delta : ℝ × ℝ)
    (hstate : bot.state = NanobotState.SEARCHING)
    (hpay : 10 ≤ bot.drug_payload) (hR : 5 ≤ geom.tumor_radius)
    (hfind : findNearestCellIdx cells (fun c => c.is_alive) 100 geom
        bot.position = none) :
    norm2 (vsub (searchStep geom cells bot (SearchChoice.move delta)).position
        geom.center) ≤ geom.tumor_radius := by
  unfold searchStep
  simp only [hfind]
  unfold searchMoveStep clampPosition
  exact enforce_contained geom cells _ hstate hpay hR

/-- The default 600 µm domain with tumor center (300, 300) and radius 200, as
built by create_simple_tumor_environment, with no vessels. -/
def cexGeom : BotGeometry :=
  { center := (300, 300)
    tumor_radius := 200
    vessels := []
    xmin := 0
    xmax := 600
    ymin := 0
    ymax := 600 }

/-- One living differentiated tumor cell at (480, 300), inside the tumor. -/
def cexCells : List TumorCell := [mkTumorCell 0 (480, 300, 0)]

/-- A SEARCHING nanobot at (510, 300) — 210 µm from the tumor center, as
happens at spawn time near a peripheral vessel (vessels sit at up to
1.1 × radius) — with a full 20 µg payload. -/
def cexBot : Nanobot :=
  { nanobot_id := 0
    position := (510, 300)
    state := NanobotState.SEARCHING
    drug_payload := 20
    target_cell := none }

/-- Concrete instantiation of `searching_move_step_contained`: the same
geometry and nanobot with no tumor cells at all, so the step is a pure
movement step. -/
theorem searching_move_step_contained_witness :
    cexBot.state = NanobotState.SEARCHING ∧ (10 : ℝ) ≤ cexBot.drug_payload ∧
      (5 : ℝ) ≤ cexGeom.tumor_radius ∧
      findNearestCellIdx [] (fun c => c.is_alive) 100 cexGeom cexBot.position
          = none ∧
      norm2 (vsub (searchStep cexGeom [] cexBot
          (SearchChoice.move (0, 0))).position cexGeom.center)
        ≤ cexGeom.tumor_radius :=
  ⟨rfl, by norm_num [cexBot], by norm_num [cexGeom], rfl,
    searching_move_step_contained cexGeom [] cexBot (0, 0) rfl
      (by norm_num [cexBot]) (by norm_num [cexGeom]) rfl⟩

/-- Claim C5 counterexample: the SEARCHING nanobot of `cexBot` stands 210 µm
from the tumor center (outside the 200 µm boundary), finds the living cell at
(480, 300) — inside the tumor and 30 µm away — locks onto it and returns
without moving or clamping (nanobot_simulation.py:150-162), so after its
SEARCHING-state step its distance from the tumor center is still 210 µm,
refuting the claim as stated. -/
theorem searching_step_containment_cex :
    cexBot.state = NanobotState.SEARCHING ∧
      ¬ (norm2 (vsub (searchStep cexGeom cexCells cexBot
            (SearchChoice.move (0, 0))).position cexGeom.center)
          ≤ cexGeom.tumor_radius) := by
  have hd1 : norm2 (vsub ((480 : ℝ), (300 : ℝ)) ((300 : ℝ), (300 : ℝ)))
      = 180 := by
    have hv : vsub ((480 : ℝ), (300 : ℝ)) ((300 : ℝ), (300 : ℝ))
        = ((180 : ℝ), (0 : ℝ)) := by unfold vsub; norm_num
    rw [hv, norm2_axis]; norm_num
  have hd2 : norm2 (vsub ((480 : ℝ), (300 : ℝ)) ((510 : ℝ), (300 : ℝ)))
      = 30 := by
    have hv : vsub ((480 : ℝ), (300 : ℝ)) ((510 : ℝ), (300 : ℝ))
        = ((-30 : ℝ), (0 : ℝ)) := by unfold vsub; norm_num
    rw [hv, norm2_axis]; norm_num
  have hd3 : norm2 (vsub ((510 : ℝ), (300 : ℝ)) ((300 : ℝ), (300 : ℝ)))
      = 210 := by
    have hv : vsub ((510 : ℝ), (300 : ℝ)) ((300 : ℝ), (300 : ℝ))
        = ((210 : ℝ), (0 : ℝ)) := by unfold vsub; norm_num
    rw [hv, norm2_axis]; norm_num
  have hfind : findNearestCellIdx cexCells (fun c => c.is_alive) 100 cexGeom
      cexBot.position = some 0 := by
    unfold findNearestCellIdx cexCells cexGeom cexBot
    norm_num [List.enum, List.enumFrom, List.filter_cons, List.filter_nil,
      List.foldl_cons, List.foldl_nil, mkTumorCell, cellPos2, hd1, hd2,
      decide_eq_true_eq]
  constructor
  · rfl
  · unfold searchStep
    simp only [hfind]
    have hpay : (2 : ℝ) < cexBot.drug_payload := by norm_num [cexBot]
    rw [if_pos hpay]
    show ¬ (norm2 (vsub cexBot.position cexGeom.center)
        ≤ cexGeom.tumor_radius)
    show ¬ (norm2 (vsub ((510 : ℝ), (300 : ℝ)) ((300 : ℝ), (300 : ℝ)))
        ≤ (200 : ℝ))
    rw [hd3]
    norm_num

open Classical in
/-- np.argmin over the distances from `pos` to a list of cells (first minimum
wins), as used by QueenNanobot._guide_with_heuristic. -/
noncomputable def argminDistCell (cells : List TumorCell) (pos : ℝ × ℝ) :
    Option TumorCell :=
  cells.foldl (fun acc c =>
    match acc with
    | none => some c
    | some b =>
      if norm2 (vsub (cellPos2 c) pos) < norm2 (vsub (cellPos2 b) pos)
      then some c else some b) none

open Classical in
/-- QueenNanobot._guide_with_heuristic (nanobot_simulation.py:808-835): if
there are no hypoxic cells, no guidance; otherwise, for every nanobot that is
SEARCHING with drug_payload strictly above 20.0, emit the unit direction
toward the nearest hypoxic cell.  The guidance dict is embedded as a list of
(nanobot_id, direction) pairs accumulated in bot order. -/
noncomputable def guideWithHeuristic (bots : List Nanobot)
    (cells : List TumorCell) : List (ℕ × (ℝ × ℝ)) :=
  let hypoxic_cells := cells.filter fun c => decide (c.phase = CellPhase.HYPOXIC)
  if hypoxic_cells.isEmpty = true then [] else
  bots.foldl (fun guidance bot =>
    if bot.state = NanobotState.SEARCHING ∧ (20 : ℝ) < bot.drug_payload then
      match argminDistCell hypoxic_cells bot.position with
      | some nc =>
        if 0 < norm2 (vsub (cellPos2 nc) bot.position) then
          guidance ++ [(bot.nanobot_id,
            vscale (1 / norm2 (vsub (cellPos2 nc) bot.position))
              (vsub (cellPos2 nc) bot.position))]
        else guidance
      | none => guidance
    else guidance) []

open Classical in
/-- The scan of one priority pool in
QueenNanobot._guide_with_enhanced_heuristic (nanobot_simulation.py:932-960):
each region position at distance d > 0 scores weight/(d + 1); keep the unit
direction of the strictly best score seen so far. -/
noncomputable def scanRegions (botPos : ℝ × ℝ) (weight : ℝ)
    (regions : List (ℝ × ℝ)) (st : Option (ℝ × ℝ) × ℝ) :
    Option (ℝ × ℝ) × ℝ :=
  regions.foldl (fun b pos =>
    if 0 < norm2 (vsub pos botPos) then
      if b.2 < weight / (norm2 (vsub pos botPos) + 1) then
        (some (vscale (1 / norm2 (vsub pos botPos)) (vsub pos botPos)),
          weight / (norm2 (vsub pos botPos) + 1))
      else b
    else b) st

open Classical in
/-- QueenNanobot._guide_with_enhanced_heuristic
(nanobot_simulation.py:923-965): for every nanobot that is SEARCHING with
drug_payload strictly above 20.0, scan the stem-cell regions (weight 3), then
the immune-active regions (weight 2), then the high-resistance regions
(weight 1.5), and emit the best direction if any. -/
noncomputable def guideWithEnhancedHeuristic (bots : List Nanobot)
    (stem_regions immune_regions resistance_regions : List (ℝ × ℝ)) :
    List (ℕ × (ℝ × ℝ)) :=
  bots.foldl (fun guidance bot =>
    if bot.state = NanobotState.SEARCHING ∧ (20 : ℝ) < bot.drug_payload then
      match (scanRegions bot.position (3/2) resistance_regions
          (scanRegions bot.position 2 immune_regions
            (scanRegions bot.position 3 stem_regions (none, 0)))).1 with
      | some dir => guidance ++ [(bot.nanobot_id, dir)]
      | none => guidance
    else guidance) []

theorem foldl_fixed {α β : Type} (l : List α) (f : β → α → β)
    (h : ∀ b a, a ∈ l → f b a = b) : ∀ b, l.foldl f b = b := by
  induction l with
  | nil => intro b; rfl
  | cons x t ih =>
    intro b
    rw [List.foldl_cons, h b x (List.mem_cons_self x t)]
    exact ih (fun b a ha => h b a (List.mem_cons_of_mem x ha)) b

/-- Claim C9: under the documented payload invariant (every nanobot's
drug_payload at most the max_payload of 20.0), both the default heuristic and
the enhanced heuristic of the Queen emit an empty guidance mapping: their only
emitting branch requires drug_payload strictly above 20.0, so the queen
coordination layer never redirects any nanobot. -/
theorem queen_guidance_empty (bots : List Nanobot) (cells : List TumorCell)
    (stem_regions immune_regions resistance_regions : List (ℝ × ℝ))
    (hpay : ∀ b ∈ bots, b.drug_payload ≤ 20) :
    guideWithHeuristic bots cells = [] ∧
      guideWithEnhancedHeuristic bots stem_regions immune_regions
        resistance_regions = [] := by
  constructor
  · unfold guideWithHeuristic
    dsimp only
    split_ifs with hemp
    · rfl
    · refine foldl_fixed bots _ (fun g bot hmem => ?_) []
      rw [if_neg (fun hcon => absurd (hpay bot hmem) (not_le.mpr hcon.2))]
  · unfold guideWithEnhancedHeuristic
    refine foldl_fixed bots _ (fun g bot hmem => ?_) []
    rw [if_neg (fun hcon => absurd (hpay bot hmem) (not_le.mpr hcon.2))]

/-- Concrete instantiation of `queen_guidance_empty`: one full (20 µg)
SEARCHING nanobot, a hypoxic cell available, and nonempty priority pools. -/
theorem queen_guidance_empty_witness :
    (∀ b ∈ [cexBot], b.drug_payload ≤ 20) ∧
      guideWithHeuristic [cexBot] [mkTumorCell 1 (350, 300, 0) .HYPOXIC] = [] ∧
      guideWithEnhancedHeuristic [cexBot] [(310, 300)] [(320, 300)]
          [(330, 300)] = [] := by
  have hpay : ∀ b ∈ [cexBot], b.drug_payload ≤ 20 := by
    intro b hb
    rw [List.mem_singleton] at hb
    rw [hb]
    norm_num [cexBot]
  exact ⟨hpay,
    queen_guidance_empty [cexBot] [mkTumorCell 1 (350, 300, 0) .HYPOXIC]
      [(310, 300)] [(320, 300)] [(330, 300)] hpay⟩

/-- A dead (necrotic) differentiated tumor cell. -/
def deadCell : TumorCell :=
  { mkTumorCell 0 (0, 0, 0) with is_alive := false, phase := .NECROTIC }

/-- An active T cell with mid activation, built as in ImmuneCell.__init__. -/
def exImmune : ImmuneCell :=
  { cell_id := 0
    position := (0, 0, 0)
    cell_type := .T_CELL
    activation_level := 1/2
    cytotoxicity := 4/5
    migration_speed := 15
    lifespan := 1440 }

/-- Concrete instantiation of `dead_cell_frozen`: a necrotic cell survives
every operation unchanged, including an immune update of a population that
contains it. -/
theorem dead_cell_frozen_witness :
    deadCell.is_alive = false ∧
      deadCell.update_oxygen_status 1 1 = deadCell ∧
      deadCell.accumulate_drug 3 = (deadCell, false) ∧
      deadCell.absorb_drug 1 1 true = deadCell ∧
      ((immuneUpdate exImmune 1 [deadCell] true).2)[0]? = some deadCell :=
  ⟨rfl,
    (dead_cell_frozen deadCell rfl).1 1 1,
    (dead_cell_frozen deadCell rfl).2.1 3,
    (dead_cell_frozen deadCell rfl).2.2.1 1 1 true,
    (dead_cell_frozen deadCell rfl).2.2.2 exImmune 1 true [deadCell] 0 rfl⟩
